import Mathlib

/-!
Verification development for the DFRobot LoRaWAN Node Module driver
(`lib/serial_module_driver.py` and `lib/uart_module_driver.py`).

The two Python driver classes are shallowly embedded: the mutable instance
attributes `_device_id`, `_mode`, `_region`, `_join_type` become an explicit
`DriverState` record, raised exceptions become `Except` errors tagged with
the Python exception class, and each method becomes a pure function from the
state (plus its arguments) to an error or an updated state together with the
list of command strings handed to `_send_command`.

Python string builtins used by the drivers (`strip`, `rstrip`, `upper`,
`splitlines`, `split` with a separator and maxsplit, `in`, `startswith`,
`endswith`) are modelled over `List Char` below, restricted to the ASCII
texts the driver manipulates.
-/

namespace DFRobotLoRaWAN

/-! ### Models of the Python string builtins -/

/-- Whitespace characters stripped by Python `str.strip()` / `str.rstrip()`
(the ASCII ones; the driver only ever handles ASCII protocol text). -/
def pyIsSpace (c : Char) : Bool :=
  c = ' ' || c = '\t' || c = '\n' || c = '\r' || c = '\x0b' || c = '\x0c'

/-- Python `s.strip()`: drop leading and trailing whitespace. -/
def pyStrip (s : String) : String :=
  ⟨((s.data.dropWhile pyIsSpace).reverse.dropWhile pyIsSpace).reverse⟩

/-- Python `s.rstrip()`: drop trailing whitespace. -/
def pyRstrip (s : String) : String :=
  ⟨(s.data.reverse.dropWhile pyIsSpace).reverse⟩

/-- Python `s.upper()` on ASCII text. -/
def pyUpper (s : String) : String :=
  ⟨s.data.map Char.toUpper⟩

/-- `sub` occurs as a contiguous sublist of `l`. -/
def isSubstrAux (sub : List Char) : List Char → Bool
  | [] => sub.isEmpty
  | c :: rest => sub.isPrefixOf (c :: rest) || isSubstrAux sub rest

/-- Python `sub in s` (substring containment). -/
def pyContains (s sub : String) : Bool :=
  isSubstrAux sub.data s.data

/-- Python `s.startswith(pre)`. -/
def pyStartswith (s pre : String) : Bool :=
  pre.data.isPrefixOf s.data

/-- Python `s.endswith(suf)`. -/
def pyEndswith (s suf : String) : Bool :=
  suf.data.reverse.isPrefixOf s.data.reverse

/-- Split a character list at the first occurrence of `sep`:
`some (before, after)` when `sep` occurs, `none` otherwise. -/
def splitFirst (sep : Char) : List Char → Option (List Char × List Char)
  | [] => none
  | c :: rest =>
    if c = sep then some ([], rest)
    else match splitFirst sep rest with
         | some (a, b) => some (c :: a, b)
         | none => none

/-- Python `s.split(sep, 1)` for a one-character separator, as the pair
(part before the first `sep`, optional part after it).  `s.split(sep, 1)`
is `[s]` when `sep` is absent and `[before, after]` when present. -/
def pySplit1 (s : String) (sep : Char) : String × Option String :=
  match splitFirst sep s.data with
  | none => (s, none)
  | some (a, b) => (⟨a⟩, some ⟨b⟩)

/-- Python `s.split(sep, 1)[-1]` for a one-character separator: the part
after the first `sep` when present, the whole string otherwise. -/
def pySplit1Last (s : String) (sep : Char) : String :=
  match (pySplit1 s sep).2 with
  | some after => after
  | none => s

/-- The part of `l` before the first occurrence of the substring `sub`
(the whole list when `sub` does not occur). -/
def beforeSubstrAux (sub : List Char) : List Char → List Char
  | [] => []
  | c :: rest =>
    if sub.isPrefixOf (c :: rest) then []
    else c :: beforeSubstrAux sub rest

/-- Python `s.split(sub)[0]` for a non-empty substring separator `sub`:
everything before the first occurrence of `sub`, or all of `s` when `sub`
does not occur. -/
def pyBeforeSubstr (s sub : String) : String :=
  ⟨beforeSubstrAux sub.data s.data⟩

/-- Python `s.splitlines()` restricted to the `\r\n`, `\r` and `\n` line
terminators (the only ones occurring in the module's CRLF protocol text):
each terminator closes the current line, and a trailing terminator does not
produce a final empty line. -/
def splitlinesAux : List Char → List Char → List (List Char)
  | [], acc => if acc.isEmpty then [] else [acc.reverse]
  | '\r' :: '\n' :: rest, acc => acc.reverse :: splitlinesAux rest []
  | '\r' :: rest, acc => acc.reverse :: splitlinesAux rest []
  | '\n' :: rest, acc => acc.reverse :: splitlinesAux rest []
  | c :: rest, acc => splitlinesAux rest (c :: acc)

/-- Python `s.splitlines()` (see `splitlinesAux`). -/
def pySplitlines (s : String) : List String :=
  (splitlinesAux s.data []).map String.mk


/-! ### Failure kinds

The drivers raise `ValueError`, `RuntimeError` and — on the unguarded
`None.splitlines()` call in `receive_data` — Python's `AttributeError`. -/

/-- The Python exception class raised by a driver operation. -/
inductive PyKind where
  | valueError
  | runtimeError
  | attributeError
deriving DecidableEq, Repr

/-- A raised Python exception: its class and its message. -/
structure PyErr where
  kind : PyKind
  msg : String
deriving DecidableEq, Repr

/-! ### Driver state

`__init__` (serial lines 58–84, uart lines 26–38) stores the validated
device id and initialises `_region`, `_mode` and `_join_type` to `None`. -/

/-- The mutable configuration attributes of a `NodeModuleDriver` instance. -/
structure DriverState where
  device_id : Nat
  mode : Option String
  region : Option String
  join_type : Option String
deriving DecidableEq, Repr

/-- The attribute initialisation performed by `__init__` after the device-id
check (`self._region = None`, `self._mode = None`, `self._join_type = None`). -/
def initState (device_id : Nat) : DriverState :=
  { device_id := device_id, mode := none, region := none, join_type := none }

/-- The device-id validation of `__init__`: `1 <= device_id <= 255` or
`ValueError`. -/
def driverInit (device_id : Nat) : Except PyErr DriverState :=
  if ¬ (1 ≤ device_id ∧ device_id ≤ 255) then
    .error ⟨.valueError, "[ERROR] Device ID must be between 1 and 255"⟩
  else
    .ok (initState device_id)

/-! ### Command Channel: framing and terminator detection (`_send_command`)

Serial lines 167–212, uart lines 58–85.  Both variants frame the command
identically; they differ in the terminator token list (the uart list lacks
`'+SEND=QU'`) and in that only the serial variant clears the transport input
buffer before writing. -/

/-- An effect performed on the transport by `_send_command`. -/
inductive TransportAction where
  | resetInputBuffer
  | write (frame : String)
deriving DecidableEq, Repr

/-- The wire frame built by `_send_command` in both variants:
a non-empty command not already starting with `'+'` gets `'+'` prepended,
then the result is wrapped as `f'AT{command}\r\n'`. -/
def frameCommand (command : String) : String :=
  let command :=
    if ¬ pyStartswith command "+" ∧ command ≠ "" then "+" ++ command else command
  "AT" ++ command ++ "\r\n"

/-- The transport effects of the serial `_send_command` up to the write:
`self._ser.reset_input_buffer()` then `self._ser.write(full_command)`
(serial lines 186–187). -/
def serialSendActions (command : String) : List TransportAction :=
  [.resetInputBuffer, .write (frameCommand command)]

/-- The transport effects of the uart `_send_command` up to the write:
only `self._uart.write(full_command)` (uart line 63); no input-buffer
clearing exists in this variant. -/
def uartSendActions (command : String) : List TransportAction :=
  [.write (frameCommand command)]

/-- The terminator tokens of the serial `_send_command` (lines 197–203). -/
def serialTerminators : List String :=
  ["+SEND=OK", "+SEND=QUEUE", "+SEND=QU", "+SEND=FAIL", "OK", "ERROR"]

/-- The terminator tokens of the uart `_send_command` (lines 73–79); note
the absence of `'+SEND=QU'`. -/
def uartTerminators : List String :=
  ["+SEND=OK", "+SEND=QUEUE", "+SEND=FAIL", "OK", "ERROR"]

/-- The serial read loop's break condition:
`any(end in response for end in [...]) and response.endswith('\r\n')`. -/
def serialLoopBreak (response : String) : Bool :=
  serialTerminators.any (fun e => pyContains response e) && pyEndswith response "\r\n"

/-- The uart read loop's break condition, over the uart token list. -/
def uartLoopBreak (response : String) : Bool :=
  uartTerminators.any (fun e => pyContains response e) && pyEndswith response "\r\n"

/-- The response-accumulation loop of `_send_command`, with the sequence of
chunks the transport makes available (one per poll iteration that sees data)
standing in for the timed polling: each chunk is appended to the buffer and
the loop breaks early exactly when the break condition holds; exhausting the
chunk list is the timeout.  Returns the accumulated buffer and whether the
loop broke before the timeout. -/
def commandLoop (brk : String → Bool) (response : String) :
    List String → String × Bool
  | [] => (response, false)
  | chunk :: rest =>
    let response := response ++ chunk
    if brk response then (response, true) else commandLoop brk response rest

/-- The tail of `_send_command`: `response = response.strip()` then
`return response or None` (empty string maps to `None`). -/
def finishResponse (response : String) : Option String :=
  let response := pyStrip response
  if response = "" then none else some response

/-! ### Response Parser (`receive_data`)

Serial lines 767–798, uart lines 335–356; the two bodies are identical. -/

/-- One iteration of the `for line in raw_response.splitlines()` loop of
`receive_data`, threading the `value` variable:
lines whose `strip()` equals `'+RECV=OK'` or `'The list is empty!'` are
skipped; a line containing `'The list is empty!'` is truncated before that
substring and right-stripped; a line then starting with `'+RECV='` sets
`value` to `line.split('\t', 1)[1]` when a tab is present, otherwise to
`line.split(' ', 1)[-1]`. -/
def recvProcessLine (value : Option String) (line : String) : Option String :=
  if pyStrip line = "+RECV=OK" ∨ pyStrip line = "The list is empty!" then
    value
  else
    let line :=
      if pyContains line "The list is empty!" then
        pyRstrip (pyBeforeSubstr line "The list is empty!")
      else line
    if pyStartswith line "+RECV=" then
      match (pySplit1 line '\t').2 with
      | some afterTab => some afterTab
      | none => some (pySplit1Last line ' ')
    else value

/-- The line scan of `receive_data` over an already-split line list, with
the final Python truthiness test `if value: return value else: return None`
(`None` and the empty string are both falsy). -/
def receiveParse (lines : List String) : Option String :=
  match lines.foldl recvProcessLine none with
  | some v => if v = "" then none else some v
  | none => none

/-- `receive_data`, taking the result of `self._send_command('RECV?')`.
When that result is `None`, the Python body evaluates
`None.splitlines()` and raises `AttributeError`; otherwise it scans the
lines and returns the extracted value (or `None`). -/
def receive_data (raw_response : Option String) : Except PyErr (Option String) :=
  match raw_response with
  | none =>
    .error ⟨.attributeError, "'NoneType' object has no attribute 'splitlines'"⟩
  | some raw => .ok (receiveParse (pySplitlines raw))


/-! ### Hex encoding used by `send_data` -/

/-- An uppercase hexadecimal digit, as produced by Python's `X` format. -/
def hexDigit (n : Nat) : Char :=
  if n < 10 then Char.ofNat ('0'.toNat + n) else Char.ofNat ('A'.toNat + (n - 10))

/-- Python `f'{n:02X}'` for `n < 256`: exactly two uppercase hex digits. -/
def pyHex2 (n : Nat) : String :=
  ⟨[hexDigit (n / 16 % 16), hexDigit (n % 16)]⟩

/-- The numeric value of an uppercase hex digit, for decoding statements. -/
def hexDigitVal (c : Char) : Option Nat :=
  if '0' ≤ c ∧ c ≤ '9' then some (c.toNat - '0'.toNat)
  else if 'A' ≤ c ∧ c ≤ 'F' then some (c.toNat - 'A'.toNat + 10)
  else none

/-- Decode a two-character uppercase hex string back to its byte value. -/
def decodeHexPair (s : String) : Option Nat :=
  match s.data with
  | [h, l] =>
    match hexDigitVal h, hexDigitVal l with
    | some a, some b => some (16 * a + b)
    | _, _ => none
  | _ => none

/-- Python `data.encode()`: the UTF-8 bytes of one character. -/
def utf8Bytes (c : Char) : List Nat :=
  let n := c.toNat
  if n < 0x80 then [n]
  else if n < 0x800 then [0xC0 + n / 0x40, 0x80 + n % 0x40]
  else if n < 0x10000 then
    [0xE0 + n / 0x1000, 0x80 + n / 0x40 % 0x40, 0x80 + n % 0x40]
  else
    [0xF0 + n / 0x40000, 0x80 + n / 0x1000 % 0x40, 0x80 + n / 0x40 % 0x40,
     0x80 + n % 0x40]

/-- Python `data.encode()`: the UTF-8 byte sequence of a string. -/
def pyEncode (s : String) : List Nat :=
  (s.data.map utf8Bytes).flatten

/-- Python `data.encode().hex().upper()`: each byte as two uppercase hex
digits, concatenated without separators. -/
def bytesHexUpper (bs : List Nat) : String :=
  String.join (bs.map pyHex2)

/-! ### Validation tables (class attributes of both drivers) -/

/-- `_VALID_LORA_MODES = ('LORA', 'LORAWAN')`. -/
def VALID_LORA_MODES : List String := ["LORA", "LORAWAN"]

/-- `_VALID_REGIONS = ('EU868', 'US915', 'CN470')`. -/
def VALID_REGIONS : List String := ["EU868", "US915", "CN470"]

/-- `_VALID_JOIN_TYPES = ('OTAA', 'ABP')`. -/
def VALID_JOIN_TYPES : List String := ["OTAA", "ABP"]

/-- `_VALID_NET_TYPES = ('CLASS_A', 'CLASS_C')`. -/
def VALID_NET_TYPES : List String := ["CLASS_A", "CLASS_C"]

/-- `_VALID_PACKET_TYPES = ('CONFIRMED', 'UNCONFIRMED')`. -/
def VALID_PACKET_TYPES : List String := ["CONFIRMED", "UNCONFIRMED"]

/-- `_VALID_FREQUENCY_RANGES`, total over the three table keys (the dict is
only ever indexed with a region previously validated by `set_region`). -/
def VALID_FREQUENCY_RANGES (region : String) : Int × Int :=
  if region = "EU868" then (863000000, 870000000)
  else if region = "US915" then (902000000, 928000000)
  else (470000000, 510000000)

/-- `_VALID_DATA_RANGES` (`range(0, 6)` / `range(0, 4)`), as the list of
members of the Python `range`. -/
def VALID_DATA_RANGES (region : String) : List Int :=
  if region = "US915" then [0, 1, 2, 3] else [0, 1, 2, 3, 4, 5]

/-- `_VALID_TRANSMIT_POWERS = range(0, 30, 2)`. -/
def VALID_TRANSMIT_POWERS : List Int := [0, 2, 4, 6, 8, 10, 12, 14, 16, 18, 20, 22, 24, 26, 28]

/-- `_VALID_BANDWIDTHS = (125000, 250000, 500000)`. -/
def VALID_BANDWIDTHS : List Int := [125000, 250000, 500000]

/-- `_VALID_SPREADING_FACTORS = range(7, 13)`. -/
def VALID_SPREADING_FACTORS : List Int := [7, 8, 9, 10, 11, 12]

/-! ### Precondition helpers -/

/-- `_required_lora_mode` (identical in both variants): `ValueError` when the
mode is unset and a `ValueError` with a different message when it is set but
differs from `expected`. -/
def required_lora_mode (s : DriverState) (expected : String) : Option PyErr :=
  match s.mode with
  | none => some ⟨.valueError, "LoRa mode must be set before this operation"⟩
  | some m =>
    if m ≠ expected then
      some ⟨.valueError, "This operation requires mode: " ++ expected⟩
    else none

/-- `_required_join_type` of `serial_module_driver.py` (lines 138–154):
`ValueError` when the join type is unset, `RuntimeError` when it is set but
differs from `expected`. -/
def serial_required_join_type (s : DriverState) (expected : String) : Option PyErr :=
  match s.join_type with
  | none => some ⟨.valueError, "LoRa join type must be set before this operation"⟩
  | some j =>
    if j ≠ expected then
      some ⟨.runtimeError, "This operation requires join type: " ++ expected⟩
    else none

/-- `_required_join_type` of `uart_module_driver.py` (lines 47–52); the body
is textually identical to the serial variant's. -/
def uart_required_join_type (s : DriverState) (expected : String) : Option PyErr :=
  match s.join_type with
  | none => some ⟨.valueError, "LoRa join type must be set before this operation"⟩
  | some j =>
    if j ≠ expected then
      some ⟨.runtimeError, "This operation requires join type: " ++ expected⟩
    else none

/-- `_required_region` (identical in both variants). -/
def required_region (s : DriverState) : Option PyErr :=
  if s.region = none then
    some ⟨.valueError, "LoRa region must be set before this operation"⟩
  else none

/-! ### Operation outcomes

A driver method either returns normally or raises; in both cases the final
attribute state and the list of command strings passed to `_send_command`
before the return/raise are recorded. -/

/-- Result of one driver method call. -/
inductive OpOutcome where
  | ok (s : DriverState) (commands : List String)
  | raised (e : PyErr) (s : DriverState) (commands : List String)
deriving DecidableEq, Repr

/-- The attribute state after the call (also on the raising path). -/
def OpOutcome.state : OpOutcome → DriverState
  | .ok s _ => s
  | .raised _ s _ => s

/-- The commands handed to `_send_command` during the call. -/
def OpOutcome.commands : OpOutcome → List String
  | .ok _ cs => cs
  | .raised _ _ cs => cs

/-- `true` when the call raised. -/
def OpOutcome.isRaised : OpOutcome → Bool
  | .ok _ _ => false
  | .raised _ _ _ => true

/-! ### Driver methods

The method bodies are identical in the serial and the uart variant except
for `_send_command` internals (modelled separately above), so each method is
embedded once.  Where a method calls `_required_join_type`, the serial
variant's embedding is used; the uart body is textually the same. -/

/-- `set_lora_mode`: validate against `_VALID_LORA_MODES` (before any
`upper()` call), then store `mode.upper()` and send `LORAMODE=...`. -/
def set_lora_mode (s : DriverState) (mode : String) : OpOutcome :=
  if mode ∉ VALID_LORA_MODES then
    .raised ⟨.valueError, "Invalid LoRa mode. Allowed modes: ('LORA', 'LORAWAN')"⟩ s []
  else
    .ok { s with mode := some (pyUpper mode) } ["LORAMODE=" ++ pyUpper mode]

/-- `set_region`: validate against `_VALID_REGIONS`, then store `str(value)`
and send `REGION=...` built from the freshly stored attribute. -/
def set_region (s : DriverState) (value : String) : OpOutcome :=
  if value ∉ VALID_REGIONS then
    .raised ⟨.valueError, "Invalid region. Allowed regions: ('EU868', 'US915', 'CN470')"⟩ s []
  else
    .ok { s with region := some value } ["REGION=" ++ value]

/-- `set_frequency`: require a region, then check the per-region range. -/
def set_frequency (s : DriverState) (value : Int) : OpOutcome :=
  match required_region s with
  | some e => .raised e s []
  | none =>
    let range := VALID_FREQUENCY_RANGES (s.region.getD "")
    if ¬ (range.1 ≤ value ∧ value ≤ range.2) then
      .raised ⟨.valueError, "Frequency out of range for region"⟩ s []
    else
      .ok s ["FREQS=" ++ toString value]

/-- `set_transmit_power`. -/
def set_transmit_power (s : DriverState) (value : Int) : OpOutcome :=
  if value ∉ VALID_TRANSMIT_POWERS then
    .raised ⟨.valueError, "Invalid transmit power. Allowed values: range(0, 30, 2)"⟩ s []
  else
    .ok s ["EIRP=" ++ toString value]

/-- `set_bandwidth`. -/
def set_bandwidth (s : DriverState) (value : Int) : OpOutcome :=
  if value ∉ VALID_BANDWIDTHS then
    .raised ⟨.valueError, "Invalid bandwidth. Allowed: (125000, 250000, 500000)"⟩ s []
  else
    .ok s ["BW=" ++ toString value]

/-- `set_spreading_factor`. -/
def set_spreading_factor (s : DriverState) (value : Int) : OpOutcome :=
  if value ∉ VALID_SPREADING_FACTORS then
    .raised ⟨.valueError, "Invalid SF. Allowed: [7, 8, 9, 10, 11, 12]"⟩ s []
  else
    .ok s ["SF=" ++ toString value]

/-- `set_data_rate`: requires mode `LORAWAN` and a region, then checks the
per-region data-rate range; note the command is written `'+DATARATE=...'`
already carrying the `'+'`. -/
def set_data_rate (s : DriverState) (value : Int) : OpOutcome :=
  match required_lora_mode s "LORAWAN" with
  | some e => .raised e s []
  | none =>
    match required_region s with
    | some e => .raised e s []
    | none =>
      if value ∉ VALID_DATA_RANGES (s.region.getD "") then
        .raised ⟨.valueError, "Invalid data rate for region"⟩ s []
      else
        .ok s ["+DATARATE=" ++ toString value]

/-- `set_dev_type`. -/
def set_dev_type (s : DriverState) (value : String) : OpOutcome :=
  match required_lora_mode s "LORAWAN" with
  | some e => .raised e s []
  | none =>
    let class_type := pyUpper value
    if class_type ∉ VALID_NET_TYPES then
      .raised ⟨.valueError, "Device class must be CLASS_A or CLASS_C"⟩ s []
    else
      .ok s ["CLASS=" ++ class_type]

/-- `set_sub_band`: `self._region not in {'US915', 'CN470'}` also covers an
unset region (`None` is not in the set). -/
def set_sub_band (s : DriverState) (value : Int) : OpOutcome :=
  match required_lora_mode s "LORAWAN" with
  | some e => .raised e s []
  | none =>
    if ¬ (s.region = some "US915" ∨ s.region = some "CN470") then
      .raised ⟨.valueError, "Sub-band selection is only available for US915 and CN470 regions"⟩ s []
    else if ¬ (0 ≤ value ∧ value ≤ 15) then
      .raised ⟨.valueError, "Sub-band must be between 0 and 15"⟩ s []
    else
      .ok s ["SUBBAND=" ++ toString value]

/-- `set_packet_type`. -/
def set_packet_type (s : DriverState) (value : String) : OpOutcome :=
  match required_lora_mode s "LORAWAN" with
  | some e => .raised e s []
  | none =>
    let mode := pyUpper value
    if mode ∉ VALID_PACKET_TYPES then
      .raised ⟨.valueError, "Packet type must be either CONFIRMED or UNCONFIRMED"⟩ s []
    else
      .ok s ["UPLINKTYPE=" ++ mode]

/-- `set_join_type`: requires mode `LORAWAN`, validates `value.upper()`
against `_VALID_JOIN_TYPES`, then stores it and sends `JOINTYPE=...`. -/
def set_join_type (s : DriverState) (value : String) : OpOutcome :=
  match required_lora_mode s "LORAWAN" with
  | some e => .raised e s []
  | none =>
    let join_type := pyUpper value
    if join_type ∉ VALID_JOIN_TYPES then
      .raised ⟨.valueError, "Join type must be either OTAA or ABP"⟩ s []
    else
      .ok { s with join_type := some join_type } ["JOINTYPE=" ++ join_type]

/-- `set_app_eui`. -/
def set_app_eui (s : DriverState) (value : String) : OpOutcome :=
  match required_lora_mode s "LORAWAN" with
  | some e => .raised e s []
  | none =>
    match serial_required_join_type s "OTAA" with
    | some e => .raised e s []
    | none =>
      let app_eui := pyUpper value
      if app_eui.length ≠ 16 then
        .raised ⟨.valueError, "AppEUI must be 16 characters (8 bytes in hex)"⟩ s []
      else
        .ok s ["JOINEUI=" ++ app_eui]

/-- `set_app_key`. -/
def set_app_key (s : DriverState) (value : String) : OpOutcome :=
  match required_lora_mode s "LORAWAN" with
  | some e => .raised e s []
  | none =>
    match serial_required_join_type s "OTAA" with
    | some e => .raised e s []
    | none =>
      let app_key := pyUpper value
      if app_key.length ≠ 32 then
        .raised ⟨.valueError, "AppKey must be 32 characters (16 bytes in hex)"⟩ s []
      else
        .ok s ["APPKEY=" ++ app_key]

/-- `set_dev_addr`: length 8 and hex-only alphabet. -/
def set_dev_addr (s : DriverState) (value : String) : OpOutcome :=
  match required_lora_mode s "LORAWAN" with
  | some e => .raised e s []
  | none =>
    match serial_required_join_type s "ABP" with
    | some e => .raised e s []
    | none =>
      let dev_addr := pyUpper value
      if dev_addr.length ≠ 8 ∨ ¬ dev_addr.data.all (fun c => c ∈ "0123456789ABCDEF".data) then
        .raised ⟨.valueError, "DevAddr must be 8 hex characters (0-9, A-F)"⟩ s []
      else
        .ok s ["DEVADDR=" ++ dev_addr]

/-- `set_app_skey`. -/
def set_app_skey (s : DriverState) (value : String) : OpOutcome :=
  match required_lora_mode s "LORAWAN" with
  | some e => .raised e s []
  | none =>
    match serial_required_join_type s "ABP" with
    | some e => .raised e s []
    | none =>
      let app_skey := pyUpper value
      if app_skey.length ≠ 32 then
        .raised ⟨.valueError, "AppSKey must be 32 characters (16 bytes in hex)"⟩ s []
      else
        .ok s ["APPSKEY=" ++ app_skey]

/-- `set_nwk_skey`. -/
def set_nwk_skey (s : DriverState) (value : String) : OpOutcome :=
  match required_lora_mode s "LORAWAN" with
  | some e => .raised e s []
  | none =>
    match serial_required_join_type s "ABP" with
    | some e => .raised e s []
    | none =>
      let nwk_skey := pyUpper value
      if nwk_skey.length ≠ 32 then
        .raised ⟨.valueError, "NwkSKey must be 32 characters (16 bytes in hex)"⟩ s []
      else
        .ok s ["NWKSKEY=" ++ nwk_skey]

/-- `enable_adr`. -/
def enable_adr (s : DriverState) (value : Bool) : OpOutcome :=
  match required_lora_mode s "LORAWAN" with
  | some e => .raised e s []
  | none => .ok s ["ADR=" ++ (if value then "1" else "0")]

/-- `enable_receive_mode`. -/
def enable_receive_mode (s : DriverState) : OpOutcome :=
  .ok s ["RECV=1"]

/-- `test_device` (sends the empty command). -/
def test_device (s : DriverState) : OpOutcome :=
  .ok s [""]

/-- `reset_device`. -/
def reset_device (s : DriverState) : OpOutcome :=
  .ok s ["REBOOT"]

/-- `start_device`. -/
def start_device (s : DriverState) : OpOutcome :=
  .ok s ["JOIN=1"]

/-- Python `response.split('=')[-1]`: everything after the last `'='`
(the whole string when `'='` is absent), shared by every getter. -/
def pySplitLastField (s : String) (sep : Char) : String :=
  ⟨(s.data.reverse.takeWhile (fun c => c ≠ sep)).reverse⟩

/-- The common getter body `response.split('=')[-1] if response else None`,
applied to the `_send_command` result of the getter's query command.  The
getters (`get_lora_mode` … `get_eirp`) read no mutable attribute and assign
none. -/
def getterParse (response : Option String) : Option String :=
  match response with
  | some r => some (pySplitLastField r '=')
  | none => none

/-- `is_joined`: requires mode `LORAWAN`, then compares the stripped
response with `'+JOIN=1'` (a `None` response is falsy). -/
def is_joined (s : DriverState) (response : Option String) :
    Except PyErr Bool :=
  match required_lora_mode s "LORAWAN" with
  | some e => .error e
  | none =>
    match response with
    | none => .ok false
    | some r => .ok (pyStrip r = "+JOIN=1")

/-- `send_data`: validates the target id range, target ≠ own id, mode
presence and — in `LORAWAN` mode — join-type presence, in that order, then
sends `SEND=` followed by destination hex, source hex and payload hex. -/
def send_data (s : DriverState) (target_id : Int) (data : List Nat) : OpOutcome :=
  if ¬ (1 ≤ target_id ∧ target_id ≤ 255) then
    .raised ⟨.valueError, "Target ID must be between 1 and 255"⟩ s []
  else if target_id = (s.device_id : Int) then
    .raised ⟨.valueError, "Target ID cannot be the same as the Device ID"⟩ s []
  else if s.mode = none then
    .raised ⟨.valueError, "LoRa mode must be set before sending data"⟩ s []
  else if s.mode = some "LORAWAN" ∧ s.join_type = none then
    .raised ⟨.valueError, "Join type must be set before sending data in LoRaWAN mode"⟩ s []
  else
    let to_hex := pyHex2 target_id.toNat
    let from_hex := pyHex2 s.device_id
    let data_hex := bytesHexUpper data
    .ok s ["SEND=" ++ (to_hex ++ from_hex ++ data_hex)]

/-! ### The public operation alphabet and its effect on the attribute state

One constructor per public method of the driver class, with the arguments
that can influence the attribute state.  Getter methods and `receive_data`
perform no attribute assignment, so their state effect is the identity;
every other method's effect is taken from its embedding above. -/

/-- A public driver method invocation. -/
inductive Op where
  | setLoraMode (mode : String)
  | setRegion (value : String)
  | setFrequency (value : Int)
  | setTransmitPower (value : Int)
  | setBandwidth (value : Int)
  | setSpreadingFactor (value : Int)
  | setDataRate (value : Int)
  | setDevType (value : String)
  | setSubBand (value : Int)
  | setPacketType (value : String)
  | setJoinType (value : String)
  | setAppEui (value : String)
  | setAppKey (value : String)
  | setDevAddr (value : String)
  | setAppSkey (value : String)
  | setNwkSkey (value : String)
  | enableAdr (value : Bool)
  | enableReceiveMode
  | testDevice
  | resetDevice
  | startDevice
  | getLoraMode
  | getRegion
  | getFrequency
  | getTransmitPower
  | getBandwidth
  | getSpreadingFactor
  | getDataRate
  | getDevEui
  | getNetId
  | getDevAddr
  | getEirp
  | isJoined
  | sendData (target_id : Int) (data : List Nat)
  | receiveData
deriving DecidableEq, Repr

/-- The attribute state after running one public method (on both its normal
and its raising path; every method performs its attribute assignment, if
any, only after all its checks have passed, so the raising path never
mutates). -/
def step (s : DriverState) : Op → DriverState
  | .setLoraMode mode => (set_lora_mode s mode).state
  | .setRegion value => (set_region s value).state
  | .setFrequency value => (set_frequency s value).state
  | .setTransmitPower value => (set_transmit_power s value).state
  | .setBandwidth value => (set_bandwidth s value).state
  | .setSpreadingFactor value => (set_spreading_factor s value).state
  | .setDataRate value => (set_data_rate s value).state
  | .setDevType value => (set_dev_type s value).state
  | .setSubBand value => (set_sub_band s value).state
  | .setPacketType value => (set_packet_type s value).state
  | .setJoinType value => (set_join_type s value).state
  | .setAppEui value => (set_app_eui s value).state
  | .setAppKey value => (set_app_key s value).state
  | .setDevAddr value => (set_dev_addr s value).state
  | .setAppSkey value => (set_app_skey s value).state
  | .setNwkSkey value => (set_nwk_skey s value).state
  | .enableAdr value => (enable_adr s value).state
  | .enableReceiveMode => (enable_receive_mode s).state
  | .testDevice => (test_device s).state
  | .resetDevice => (reset_device s).state
  | .startDevice => (start_device s).state
  | .getLoraMode => s
  | .getRegion => s
  | .getFrequency => s
  | .getTransmitPower => s
  | .getBandwidth => s
  | .getSpreadingFactor => s
  | .getDataRate => s
  | .getDevEui => s
  | .getNetId => s
  | .getDevAddr => s
  | .getEirp => s
  | .isJoined => s
  | .sendData target_id data => (send_data s target_id data).state
  | .receiveData => s

/-- The attribute state reached from a fresh driver instance after a
sequence of public method calls. -/
def run (device_id : Nat) (ops : List Op) : DriverState :=
  ops.foldl step (initState device_id)


/-! ### Specification-side definitions used for comparison with the code -/

/-- The terminator-token set as the specification lists it (§4.1): six
tokens including `'+SEND=QU'`. -/
def claimTerminators : List String :=
  ["+SEND=OK", "+SEND=QUEUE", "+SEND=QU", "+SEND=FAIL", "OK", "ERROR"]

/-- The terminal condition as the specification states it: the buffer
contains one of the six listed tokens and currently ends with CRLF. -/
def claimTerminal (response : String) : Bool :=
  claimTerminators.any (fun t => pyContains response t) && pyEndswith response "\r\n"

/-- Everything after the first occurrence of `sep` (empty when `sep` is
absent; only used under a containment guard). -/
def afterFirst (s : String) (sep : Char) : String :=
  ⟨(s.data.dropWhile (fun c => c ≠ sep)).tail⟩

/-- Per-line payload extraction as the specification's parser algorithm
(§4.4) describes it: skip a line whose `strip()` is exactly `'+RECV=OK'` or
`'The list is empty!'`; truncate at an embedded `'The list is empty!'` and
right-trim; a remaining line starting with `'+RECV='` yields everything
after the first tab when a tab is present, otherwise everything after the
first space when a space is present, otherwise the whole line. -/
def qualifySpec (line : String) : Option String :=
  if pyStrip line = "+RECV=OK" ∨ pyStrip line = "The list is empty!" then none
  else
    let t := if pyContains line "The list is empty!" then
               pyRstrip (pyBeforeSubstr line "The list is empty!")
             else line
    if pyStartswith t "+RECV=" then
      some (if t.data.contains '\t' then afterFirst t '\t'
            else if t.data.contains ' ' then afterFirst t ' '
            else t)
    else none

/-- The specification's account of the whole parse: the payload of the last
qualifying line, or absent when no line qualifies. -/
def receiveSpecStated (lines : List String) : Option String :=
  (lines.filterMap qualifySpec).getLast?

/-- The code's per-line extraction viewed in isolation: `recvProcessLine`
run with an empty accumulator, so the result is `some payload` exactly when
the line qualifies and sets `value`. -/
def recvQualify (line : String) : Option String :=
  recvProcessLine none line

/-- Accumulated buffer after the first `n` chunks have been appended. -/
def accumAfter (acc : String) (chunks : List String) (n : Nat) : String :=
  acc ++ String.join (chunks.take n)

/-- Bool discriminators for the three configuration setters, used to state
"written only by its own setter". -/
def Op.isSetLoraMode : Op → Bool
  | .setLoraMode _ => true
  | _ => false

/-- Discriminator for `set_region` invocations. -/
def Op.isSetRegion : Op → Bool
  | .setRegion _ => true
  | _ => false

/-- Discriminator for `set_join_type` invocations. -/
def Op.isSetJoinType : Op → Bool
  | .setJoinType _ => true
  | _ => false

/-- The three configuration fields each hold either the absent value or a
member of their validation table. -/
def ConfigInv (s : DriverState) : Prop :=
  (s.mode = none ∨ s.mode = some "LORA" ∨ s.mode = some "LORAWAN") ∧
  (s.region = none ∨ s.region = some "EU868" ∨ s.region = some "US915" ∨
    s.region = some "CN470") ∧
  (s.join_type = none ∨ s.join_type = some "OTAA" ∨ s.join_type = some "ABP")

instance (s : DriverState) : Decidable (ConfigInv s) := by
  unfold ConfigInv; infer_instance

/-! Sanity checks of the string models on concrete values. -/

example : pyStrip "  +RECV=OK \r\n" = "+RECV=OK" := by decide
example : pySplitlines "a\r\nb\r\n" = ["a", "b"] := by decide
example : pySplitlines "" = [] := by decide
example : pySplitlines "a\n\nb" = ["a", "", "b"] := by decide
example : pySplit1 "+RECV=1\t02FF" '\t' = ("+RECV=1", some "02FF") := by decide
example : pySplit1Last "+RECV=2 0100Test" ' ' = "0100Test" := by decide
example : pySplit1Last "+RECV=ABC" ' ' = "+RECV=ABC" := by decide
example : pyBeforeSubstr "+RECV=1\tAB The list is empty!" "The list is empty!"
    = "+RECV=1\tAB " := by decide
example : pyContains "xOKy" "OK" = true := by decide
example : pyEndswith "abc\r\n" "\r\n" = true := by decide
example : pyUpper "otaa" = "OTAA" := by decide

/-! Sanity checks on concrete protocol texts. -/

example : frameCommand "RECV?" = "AT+RECV?\r\n" := by decide
example : frameCommand "" = "AT\r\n" := by decide
example : frameCommand "+DATARATE=3" = "AT+DATARATE=3\r\n" := by decide
example : serialLoopBreak "xxOK\r\n" = true := by decide
example : serialLoopBreak "xxOK" = false := by decide
example : uartLoopBreak "+SEND=QU\r\n" = false := by decide
example : serialLoopBreak "+SEND=QU\r\n" = true := by decide
example :
    receiveParse ["+RECV=OK", "+RECV=1\t02FF48656C6C6F", "The list is empty!"]
      = some "02FF48656C6C6F" := by decide
example : receiveParse ["+RECV=2 0100Test"] = some "0100Test" := by decide
example : receive_data none
    = .error ⟨.attributeError, "'NoneType' object has no attribute 'splitlines'"⟩ := rfl

/-! Sanity checks on concrete call sequences. -/

example :
    run 1 [Op.setLoraMode "LORAWAN", Op.setJoinType "otaa"]
      = { device_id := 1, mode := some "LORAWAN", region := none,
          join_type := some "OTAA" } := by decide

example :
    run 1 [Op.setLoraMode "lora"]
      = { device_id := 1, mode := none, region := none, join_type := none } := by decide

example :
    (send_data { device_id := 1, mode := some "LORA", region := none,
                 join_type := none } 2 (pyEncode "Hi")).commands
      = ["SEND=02014869"] := by decide

/-! ### Helper lemmas -/

theorem splitFirst_eq (sep : Char) (l : List Char) :
    splitFirst sep l =
      if l.contains sep then
        some (l.takeWhile (fun c => c ≠ sep), (l.dropWhile (fun c => c ≠ sep)).tail)
      else none := by
  induction l with
  | nil => simp [splitFirst]
  | cons c rest ih =>
    by_cases h : c = sep
    · subst h
      simp [splitFirst, List.takeWhile, List.dropWhile]
    · by_cases hr : sep ∈ rest
      · simp [splitFirst, ih, List.contains_cons, hr, h, Ne.symm h,
              List.takeWhile_cons, List.dropWhile_cons]
      · simp [splitFirst, ih, List.contains_cons, hr, h, Ne.symm h]

theorem isPrefixOf_mem {l1 l2 : List Char} (h : l1.isPrefixOf l2 = true) :
    ∀ c ∈ l1, c ∈ l2 := by
  induction l1 generalizing l2 with
  | nil => intro c hc; cases hc
  | cons a as ih =>
    cases l2 with
    | nil => cases h
    | cons b bs =>
      simp only [List.isPrefixOf, Bool.and_eq_true, beq_iff_eq] at h
      intro c hc
      cases hc with
      | head => exact h.1 ▸ List.mem_cons_self _ _
      | tail _ hmem => exact List.mem_cons_of_mem _ (ih h.2 c hmem)

theorem isSubstrAux_mem {sub l : List Char} (h : isSubstrAux sub l = true) :
    ∀ c ∈ sub, c ∈ l := by
  induction l with
  | nil =>
    simp only [isSubstrAux, List.isEmpty_iff] at h
    subst h; intro c hc; cases hc
  | cons b bs ih =>
    simp only [isSubstrAux, Bool.or_eq_true] at h
    cases h with
    | inl hp => exact isPrefixOf_mem hp
    | inr hs => exact fun c hc => List.mem_cons_of_mem _ (ih hs c hc)

theorem foldl_append_init (l : List String) (a b : String) :
    l.foldl (fun r s => r ++ s) (a ++ b) = a ++ l.foldl (fun r s => r ++ s) b := by
  induction l generalizing b with
  | nil => rfl
  | cons x xs ih => simp only [List.foldl_cons, String.append_assoc, ih]

theorem foldl_append_shift (l : List String) (c : String) :
    l.foldl (fun r s => r ++ s) c = c ++ l.foldl (fun r s => r ++ s) "" := by
  have h := foldl_append_init l c ""
  simpa using h

theorem accumAfter_cons (acc c : String) (cs : List String) (n : Nat) :
    accumAfter acc (c :: cs) (n + 1) = accumAfter (acc ++ c) cs n := by
  simp only [accumAfter, String.join, List.take_succ_cons, List.foldl_cons]
  rw [show ("" ++ c) = c from by simp, foldl_append_shift, ← String.append_assoc]

theorem accumAfter_one (acc c : String) (cs : List String) :
    accumAfter acc (c :: cs) 1 = acc ++ c := by
  rw [accumAfter_cons]
  simp [accumAfter, String.join]

theorem commandLoop_breaks_iff (brk : String → Bool) (acc : String)
    (chunks : List String) :
    (commandLoop brk acc chunks).2 = true ↔
      ∃ n, 1 ≤ n ∧ n ≤ chunks.length ∧ brk (accumAfter acc chunks n) = true := by
  induction chunks generalizing acc with
  | nil =>
    simp only [commandLoop, List.length_nil]
    constructor
    · intro h; cases h
    · rintro ⟨n, h1, h2, _⟩; omega
  | cons c cs ih =>
    simp only [commandLoop, List.length_cons]
    by_cases hb : brk (acc ++ c) = true
    · rw [if_pos hb]
      refine ⟨fun _ => ⟨1, le_refl 1, by omega, ?_⟩, fun _ => rfl⟩
      rw [accumAfter_one]; exact hb
    · rw [if_neg hb, ih]
      constructor
      · rintro ⟨n, h1, h2, h3⟩
        exact ⟨n + 1, by omega, by omega, by rw [accumAfter_cons]; exact h3⟩
      · rintro ⟨n, h1, h2, h3⟩
        match n, h1, h2, h3 with
        | 1, _, _, h3 =>
          rw [accumAfter_one] at h3
          exact absurd h3 hb
        | (m + 2), _, h2, h3 =>
          rw [accumAfter_cons] at h3
          exact ⟨m + 1, by omega, by omega, h3⟩

/-! ### Claim theorems -/

/-- C1: the claim states that when the `RECV?` command resolves to the
absent value, `receive_data` returns the absent value rather than raising.
The code instead evaluates `None.splitlines()` and raises `AttributeError`;
a present but non-qualifying response does map to the absent value. -/
theorem C1_receive_none_raises :
    receive_data none
      = .error ⟨.attributeError, "'NoneType' object has no attribute 'splitlines'"⟩ ∧
    receive_data (some "The list is empty!") = .ok none :=
  ⟨rfl, rfl⟩

/-- C9 counterexample: at a concrete state with join type `OTAA` and
expected type `ABP`, both driver variants' `_required_join_type` raise the
same failure kind, `RuntimeError` — the claim says they raise different
kinds, one of them a generic value error. -/
theorem C9_counterexample :
    (serial_required_join_type
        ⟨1, some "LORAWAN", none, some "OTAA"⟩ "ABP").map PyErr.kind
      = some PyKind.runtimeError ∧
    (uart_required_join_type
        ⟨1, some "LORAWAN", none, some "OTAA"⟩ "ABP").map PyErr.kind
      = some PyKind.runtimeError := by
  decide

/-- C9 (amended): for a set-but-mismatched join type the two driver
variants raise the SAME failure kind (`RuntimeError` with the same
message); the two `_required_join_type` bodies are textually identical. -/
theorem C9_same_failure_kind (s : DriverState) (expected j : String)
    (hset : s.join_type = some j) (hne : j ≠ expected) :
    serial_required_join_type s expected
      = some ⟨.runtimeError, "This operation requires join type: " ++ expected⟩ ∧
    uart_required_join_type s expected = serial_required_join_type s expected := by
  simp [serial_required_join_type, uart_required_join_type, hset, hne]

/-- C9 witness. -/
theorem C9_same_failure_kind_witness :
    serial_required_join_type ⟨1, some "LORAWAN", none, some "OTAA"⟩ "ABP"
      = some ⟨.runtimeError, "This operation requires join type: " ++ "ABP"⟩ ∧
    uart_required_join_type ⟨1, some "LORAWAN", none, some "OTAA"⟩ "ABP"
      = serial_required_join_type ⟨1, some "LORAWAN", none, some "OTAA"⟩ "ABP" :=
  C9_same_failure_kind ⟨1, some "LORAWAN", none, some "OTAA"⟩ "ABP" "OTAA" rfl
    (by decide)

/-- C7 counterexample: the uart `_send_command` performs no input-buffer
clearing before its write — its transport effect is the bare write, against
the claim that both variants clear the buffer first. -/
theorem C7_counterexample :
    uartSendActions "RECV?" = [.write "AT+RECV?\r\n"] ∧
    TransportAction.resetInputBuffer ∉ uartSendActions "RECV?" := by
  decide

/-- C7 (amended): both variants write exactly `'AT' + command + CRLF` with
`'+'` prepended to a non-empty command not already starting with `'+'`; the
serial variant clears the transport input buffer immediately before the
write, while the uart variant only writes. -/
theorem C7_framing (command : String) :
    frameCommand command
      = "AT" ++ (if command ≠ "" ∧ ¬ pyStartswith command "+" = true
                 then "+" ++ command else command) ++ "\r\n" ∧
    serialSendActions command
      = [.resetInputBuffer, .write (frameCommand command)] ∧
    uartSendActions command = [.write (frameCommand command)] := by
  refine ⟨?_, rfl, rfl⟩
  unfold frameCommand
  by_cases h1 : pyStartswith command "+" = true <;> by_cases h2 : command = "" <;>
    simp [h1, h2]

/-- C3 counterexample: a buffer consisting of the token `'+SEND=QU'`
followed by CRLF is terminal per the claim's six-token set, and terminal
for the serial variant, but the uart variant's loop does not break on it
(its token list lacks `'+SEND=QU'`). -/
theorem C3_counterexample :
    claimTerminal "+SEND=QU\r\n" = true ∧
    serialLoopBreak "+SEND=QU\r\n" = true ∧
    uartLoopBreak "+SEND=QU\r\n" = false ∧
    (commandLoop uartLoopBreak "" ["+SEND=QU\r\n"]).2 = false := by
  decide

/-- C3 (amended): the serial loop's break condition is exactly the claimed
six-token condition; the uart variant's break condition uses the five-token
list without `'+SEND=QU'`; in both variants a buffer not ending in CRLF is
never terminal; and each accumulation loop ends before the timeout exactly
when some accumulated chunk prefix satisfies the variant's break
condition. -/
theorem C3_terminal_condition (response : String) (chunks : List String) :
    serialLoopBreak response = claimTerminal response ∧
    (uartLoopBreak response = true ↔
      ((∃ t ∈ uartTerminators, pyContains response t = true) ∧
        pyEndswith response "\r\n" = true)) ∧
    (pyEndswith response "\r\n" = false →
      serialLoopBreak response = false ∧ uartLoopBreak response = false) ∧
    ((commandLoop serialLoopBreak "" chunks).2 = true ↔
      ∃ n, 1 ≤ n ∧ n ≤ chunks.length ∧
        serialLoopBreak (accumAfter "" chunks n) = true) ∧
    ((commandLoop uartLoopBreak "" chunks).2 = true ↔
      ∃ n, 1 ≤ n ∧ n ≤ chunks.length ∧
        uartLoopBreak (accumAfter "" chunks n) = true) := by
  refine ⟨rfl, ?_, ?_, commandLoop_breaks_iff _ _ _, commandLoop_breaks_iff _ _ _⟩
  · simp [uartLoopBreak, List.any_eq_true]
  · intro hend
    constructor <;> simp [serialLoopBreak, uartLoopBreak, hend]

/-- C3 witness. -/
theorem C3_terminal_condition_witness :
    serialLoopBreak "xxOK\r\n" = claimTerminal "xxOK\r\n" ∧
    (serialLoopBreak "xxOK" = false ∧ uartLoopBreak "xxOK" = false) :=
  ⟨(C3_terminal_condition "xxOK\r\n" []).1,
   (C3_terminal_condition "xxOK" []).2.2.1 (by decide)⟩

set_option maxRecDepth 8000 in
/-- C4: for a valid destination, own id and payload, `send_data` issues a
`SEND` command whose value is the two uppercase hex digits of the
destination id, then two of the own id, then the uppercase hex of the
payload bytes with no separators; `pyHex2` on any byte yields exactly two
uppercase hex digits that decode back to the byte. -/
theorem C4_send_encoding (s : DriverState) (target_id : Int) (data : List Nat)
    (h1 : 1 ≤ target_id) (h2 : target_id ≤ 255)
    (h3 : target_id ≠ (s.device_id : Int))
    (h4 : s.mode ≠ none)
    (h5 : ¬ (s.mode = some "LORAWAN" ∧ s.join_type = none)) :
    send_data s target_id data
      = .ok s ["SEND=" ++ (pyHex2 target_id.toNat ++ pyHex2 s.device_id
          ++ bytesHexUpper data)] ∧
    (∀ b : Fin 256,
      (pyHex2 b.val).length = 2 ∧
      (pyHex2 b.val).data.all (fun c => c ∈ "0123456789ABCDEF".data) = true ∧
      decodeHexPair (pyHex2 b.val) = some b.val) := by
  constructor
  · unfold send_data
    rw [if_neg (not_not_intro ⟨h1, h2⟩), if_neg h3, if_neg h4, if_neg h5]
  · decide

/-- C4 witness: destination 2, source 1, payload `'Hi'` encodes to
`02014869`. -/
theorem C4_send_encoding_witness :
    send_data ⟨1, some "LORA", none, none⟩ 2 (pyEncode "Hi")
      = .ok ⟨1, some "LORA", none, none⟩ ["SEND=02014869"] :=
  (C4_send_encoding ⟨1, some "LORA", none, none⟩ 2 (pyEncode "Hi")
    (by norm_num) (by norm_num) (by decide) (by decide) (by decide)).1

/-- C5: each configuration setter validates its argument before storing the
field and before any command is sent: an invalid argument raises
`ValueError` with the whole attribute state unchanged and no command
issued; a valid argument stores exactly its own field and issues exactly
the one command. -/
theorem C5_setter_validation (s : DriverState) (m r j : String) :
    (m ∉ VALID_LORA_MODES →
      set_lora_mode s m
        = .raised ⟨.valueError,
            "Invalid LoRa mode. Allowed modes: ('LORA', 'LORAWAN')"⟩ s []) ∧
    (m ∈ VALID_LORA_MODES →
      set_lora_mode s m
        = .ok { s with mode := some (pyUpper m) } ["LORAMODE=" ++ pyUpper m]) ∧
    (r ∉ VALID_REGIONS →
      set_region s r
        = .raised ⟨.valueError,
            "Invalid region. Allowed regions: ('EU868', 'US915', 'CN470')"⟩ s []) ∧
    (r ∈ VALID_REGIONS →
      set_region s r = .ok { s with region := some r } ["REGION=" ++ r]) ∧
    (required_lora_mode s "LORAWAN" = none → pyUpper j ∉ VALID_JOIN_TYPES →
      set_join_type s j
        = .raised ⟨.valueError, "Join type must be either OTAA or ABP"⟩ s []) ∧
    (required_lora_mode s "LORAWAN" = none → pyUpper j ∈ VALID_JOIN_TYPES →
      set_join_type s j
        = .ok { s with join_type := some (pyUpper j) } ["JOINTYPE=" ++ pyUpper j]) := by
  refine ⟨fun h => ?_, fun h => ?_, fun h => ?_, fun h => ?_,
          fun hm h => ?_, fun hm h => ?_⟩
  · simp [set_lora_mode, h]
  · simp [set_lora_mode, h]
  · simp [set_region, h]
  · simp [set_region, h]
  · simp [set_join_type, hm, h]
  · simp [set_join_type, hm, h]

/-- C5 witness: an invalid (lowercase) mode and an invalid join type are
rejected without touching the state or the transport. -/
theorem C5_setter_validation_witness :
    set_lora_mode (initState 1) "lora"
      = .raised ⟨.valueError,
          "Invalid LoRa mode. Allowed modes: ('LORA', 'LORAWAN')"⟩ (initState 1) [] ∧
    set_join_type ⟨1, some "LORAWAN", none, none⟩ "MQTT"
      = .raised ⟨.valueError, "Join type must be either OTAA or ABP"⟩
          ⟨1, some "LORAWAN", none, none⟩ [] :=
  ⟨(C5_setter_validation (initState 1) "lora" "EU868" "OTAA").1 (by decide),
   (C5_setter_validation ⟨1, some "LORAWAN", none, none⟩ "x" "x" "MQTT").2.2.2.2.1
     (by decide) (by decide)⟩

/-- C6: `send_data` raises (with no command issued) exactly when the target
id is outside `[1,255]`, or equals the own device id (regardless of any
other state), or the mode is unset, or the mode is `LORAWAN` with the join
type unset — checked in that order; otherwise the `SEND` command is
issued. -/
theorem C6_send_guards (s : DriverState) (target_id : Int) (data : List Nat) :
    (¬ (1 ≤ target_id ∧ target_id ≤ 255) →
      send_data s target_id data
        = .raised ⟨.valueError, "Target ID must be between 1 and 255"⟩ s []) ∧
    ((1 ≤ target_id ∧ target_id ≤ 255) → target_id = (s.device_id : Int) →
      send_data s target_id data
        = .raised ⟨.valueError, "Target ID cannot be the same as the Device ID"⟩ s []) ∧
    ((1 ≤ target_id ∧ target_id ≤ 255) → target_id ≠ (s.device_id : Int) →
      s.mode = none →
      send_data s target_id data
        = .raised ⟨.valueError, "LoRa mode must be set before sending data"⟩ s []) ∧
    ((1 ≤ target_id ∧ target_id ≤ 255) → target_id ≠ (s.device_id : Int) →
      s.mode = some "LORAWAN" → s.join_type = none →
      send_data s target_id data
        = .raised ⟨.valueError,
            "Join type must be set before sending data in LoRaWAN mode"⟩ s []) ∧
    ((send_data s target_id data).isRaised = true ↔
      (¬ (1 ≤ target_id ∧ target_id ≤ 255) ∨ target_id = (s.device_id : Int) ∨
        s.mode = none ∨ (s.mode = some "LORAWAN" ∧ s.join_type = none))) ∧
    ((send_data s target_id data).isRaised = true →
      (send_data s target_id data).commands = []) ∧
    ((send_data s target_id data).isRaised = false →
      (send_data s target_id data).commands
        = ["SEND=" ++ (pyHex2 target_id.toNat ++ pyHex2 s.device_id
            ++ bytesHexUpper data)]) := by
  refine ⟨fun h => by rw [send_data, if_pos h], fun h1 h2 => ?_,
          fun h1 h2 h3 => ?_, fun h1 h2 h3 h4 => ?_, ?_, ?_, ?_⟩
  · rw [send_data, if_neg (not_not_intro h1), if_pos h2]
  · rw [send_data, if_neg (not_not_intro h1), if_neg h2, if_pos h3]
  · rw [send_data, if_neg (not_not_intro h1), if_neg h2,
        if_neg (show ¬ s.mode = none by simp [h3]), if_pos ⟨h3, h4⟩]
  · by_cases hA : 1 ≤ target_id ∧ target_id ≤ 255
    · by_cases hB : target_id = (s.device_id : Int)
      · rw [send_data, if_neg (not_not_intro hA), if_pos hB]
        simp only [OpOutcome.isRaised, true_iff]
        exact Or.inr (Or.inl hB)
      · by_cases hC : s.mode = none
        · rw [send_data, if_neg (not_not_intro hA), if_neg hB, if_pos hC]
          simp only [OpOutcome.isRaised, true_iff]
          exact Or.inr (Or.inr (Or.inl hC))
        · by_cases hD : s.mode = some "LORAWAN" ∧ s.join_type = none
          · rw [send_data, if_neg (not_not_intro hA), if_neg hB, if_neg hC,
                if_pos hD]
            simp only [OpOutcome.isRaised, true_iff]
            exact Or.inr (Or.inr (Or.inr hD))
          · rw [send_data, if_neg (not_not_intro hA), if_neg hB, if_neg hC,
                if_neg hD]
            simp only [OpOutcome.isRaised, Bool.false_eq_true, false_iff]
            rintro (h | h | h | h)
            · exact h hA
            · exact hB h
            · exact hC h
            · exact hD h
    · rw [send_data, if_pos hA]
      simp only [OpOutcome.isRaised, true_iff]
      exact Or.inl hA
  · by_cases hA : 1 ≤ target_id ∧ target_id ≤ 255
    · by_cases hB : target_id = (s.device_id : Int)
      · rw [send_data, if_neg (not_not_intro hA), if_pos hB]; intro _; rfl
      · by_cases hC : s.mode = none
        · rw [send_data, if_neg (not_not_intro hA), if_neg hB, if_pos hC]
          intro _; rfl
        · by_cases hD : s.mode = some "LORAWAN" ∧ s.join_type = none
          · rw [send_data, if_neg (not_not_intro hA), if_neg hB, if_neg hC,
                if_pos hD]
            intro _; rfl
          · rw [send_data, if_neg (not_not_intro hA), if_neg hB, if_neg hC,
                if_neg hD]
            intro h
            exact absurd h (by simp [OpOutcome.isRaised])
    · rw [send_data, if_pos hA]; intro _; rfl
  · by_cases hA : 1 ≤ target_id ∧ target_id ≤ 255
    · by_cases hB : target_id = (s.device_id : Int)
      · rw [send_data, if_neg (not_not_intro hA), if_pos hB]
        intro h
        exact absurd h (by simp [OpOutcome.isRaised])
      · by_cases hC : s.mode = none
        · rw [send_data, if_neg (not_not_intro hA), if_neg hB, if_pos hC]
          intro h
          exact absurd h (by simp [OpOutcome.isRaised])
        · by_cases hD : s.mode = some "LORAWAN" ∧ s.join_type = none
          · rw [send_data, if_neg (not_not_intro hA), if_neg hB, if_neg hC,
                if_pos hD]
            intro h
            exact absurd h (by simp [OpOutcome.isRaised])
          · rw [send_data, if_neg (not_not_intro hA), if_neg hB, if_neg hC,
                if_neg hD]
            intro _; rfl
    · rw [send_data, if_pos hA]
      intro h
      exact absurd h (by simp [OpOutcome.isRaised])

/-- C6 witness: target equal to the own id fails even with mode and join
type configured elsewhere unset, and `LORAWAN` mode with unset join type
fails. -/
theorem C6_send_guards_witness :
    send_data ⟨5, some "LORAWAN", none, none⟩ 5 []
      = .raised ⟨.valueError, "Target ID cannot be the same as the Device ID"⟩
          ⟨5, some "LORAWAN", none, none⟩ [] ∧
    send_data ⟨5, some "LORAWAN", none, none⟩ 6 []
      = .raised ⟨.valueError,
          "Join type must be set before sending data in LoRaWAN mode"⟩
          ⟨5, some "LORAWAN", none, none⟩ [] :=
  ⟨(C6_send_guards ⟨5, some "LORAWAN", none, none⟩ 5 []).2.1 (by decide) (by decide),
   (C6_send_guards ⟨5, some "LORAWAN", none, none⟩ 6 []).2.2.2.1
     (by decide) (by decide) rfl rfl⟩

theorem set_lora_mode_state (s : DriverState) (m : String) :
    (set_lora_mode s m).state
      = if m ∈ VALID_LORA_MODES then { s with mode := some (pyUpper m) } else s := by
  unfold set_lora_mode
  by_cases h : m ∈ VALID_LORA_MODES
  · rw [if_neg (not_not_intro h), if_pos h]; rfl
  · rw [if_pos h, if_neg h]; rfl

theorem set_region_state (s : DriverState) (v : String) :
    (set_region s v).state
      = if v ∈ VALID_REGIONS then { s with region := some v } else s := by
  unfold set_region
  by_cases h : v ∈ VALID_REGIONS
  · rw [if_neg (not_not_intro h), if_pos h]; rfl
  · rw [if_pos h, if_neg h]; rfl

theorem set_join_type_state (s : DriverState) (v : String) :
    (set_join_type s v).state
      = if required_lora_mode s "LORAWAN" = none ∧ pyUpper v ∈ VALID_JOIN_TYPES
        then { s with join_type := some (pyUpper v) } else s := by
  cases h : required_lora_mode s "LORAWAN" with
  | none =>
    by_cases hj : pyUpper v ∈ VALID_JOIN_TYPES <;>
      simp [set_join_type, h, hj, OpOutcome.state]
  | some e =>
    simp [set_join_type, h, OpOutcome.state]

theorem set_frequency_state (s : DriverState) (v : Int) :
    (set_frequency s v).state = s := by
  unfold set_frequency; (repeat' (first | split | dsimp only)) <;> rfl

theorem set_transmit_power_state (s : DriverState) (v : Int) :
    (set_transmit_power s v).state = s := by
  unfold set_transmit_power; (repeat' (first | split | dsimp only)) <;> rfl

theorem set_bandwidth_state (s : DriverState) (v : Int) :
    (set_bandwidth s v).state = s := by
  unfold set_bandwidth; (repeat' (first | split | dsimp only)) <;> rfl

theorem set_spreading_factor_state (s : DriverState) (v : Int) :
    (set_spreading_factor s v).state = s := by
  unfold set_spreading_factor; (repeat' (first | split | dsimp only)) <;> rfl

theorem set_data_rate_state (s : DriverState) (v : Int) :
    (set_data_rate s v).state = s := by
  unfold set_data_rate; (repeat' (first | split | dsimp only)) <;> rfl

theorem set_dev_type_state (s : DriverState) (v : String) :
    (set_dev_type s v).state = s := by
  unfold set_dev_type; (repeat' (first | split | dsimp only)) <;> rfl

theorem set_sub_band_state (s : DriverState) (v : Int) :
    (set_sub_band s v).state = s := by
  unfold set_sub_band; (repeat' (first | split | dsimp only)) <;> rfl

theorem set_packet_type_state (s : DriverState) (v : String) :
    (set_packet_type s v).state = s := by
  unfold set_packet_type; (repeat' (first | split | dsimp only)) <;> rfl

theorem set_app_eui_state (s : DriverState) (v : String) :
    (set_app_eui s v).state = s := by
  unfold set_app_eui; (repeat' (first | split | dsimp only)) <;> rfl

theorem set_app_key_state (s : DriverState) (v : String) :
    (set_app_key s v).state = s := by
  unfold set_app_key; (repeat' (first | split | dsimp only)) <;> rfl

theorem set_dev_addr_state (s : DriverState) (v : String) :
    (set_dev_addr s v).state = s := by
  unfold set_dev_addr; (repeat' (first | split | dsimp only)) <;> rfl

theorem set_app_skey_state (s : DriverState) (v : String) :
    (set_app_skey s v).state = s := by
  unfold set_app_skey; (repeat' (first | split | dsimp only)) <;> rfl

theorem set_nwk_skey_state (s : DriverState) (v : String) :
    (set_nwk_skey s v).state = s := by
  unfold set_nwk_skey; (repeat' (first | split | dsimp only)) <;> rfl

theorem enable_adr_state (s : DriverState) (v : Bool) :
    (enable_adr s v).state = s := by
  unfold enable_adr; (repeat' (first | split | dsimp only)) <;> rfl

theorem send_data_state (s : DriverState) (t : Int) (d : List Nat) :
    (send_data s t d).state = s := by
  unfold send_data; (repeat' (first | split | dsimp only)) <;> rfl

theorem step_mode_eq (s : DriverState) (op : Op) (h : op.isSetLoraMode = false) :
    (step s op).mode = s.mode := by
  cases op <;>
    simp only [step, set_region_state, set_frequency_state,
      set_transmit_power_state, set_bandwidth_state, set_spreading_factor_state,
      set_data_rate_state, set_dev_type_state, set_sub_band_state,
      set_packet_type_state, set_join_type_state, set_app_eui_state,
      set_app_key_state, set_dev_addr_state, set_app_skey_state,
      set_nwk_skey_state, enable_adr_state, enable_receive_mode, test_device,
      reset_device, start_device, send_data_state] <;>
    first
      | rfl
      | (split <;> rfl)
      | (simp [Op.isSetLoraMode] at h)

theorem step_region_eq (s : DriverState) (op : Op) (h : op.isSetRegion = false) :
    (step s op).region = s.region := by
  cases op <;>
    simp only [step, set_lora_mode_state, set_frequency_state,
      set_transmit_power_state, set_bandwidth_state, set_spreading_factor_state,
      set_data_rate_state, set_dev_type_state, set_sub_band_state,
      set_packet_type_state, set_join_type_state, set_app_eui_state,
      set_app_key_state, set_dev_addr_state, set_app_skey_state,
      set_nwk_skey_state, enable_adr_state, enable_receive_mode, test_device,
      reset_device, start_device, send_data_state] <;>
    first
      | rfl
      | (split <;> rfl)
      | (simp [Op.isSetRegion] at h)

theorem step_join_eq (s : DriverState) (op : Op) (h : op.isSetJoinType = false) :
    (step s op).join_type = s.join_type := by
  cases op <;>
    simp only [step, set_lora_mode_state, set_region_state, set_frequency_state,
      set_transmit_power_state, set_bandwidth_state, set_spreading_factor_state,
      set_data_rate_state, set_dev_type_state, set_sub_band_state,
      set_packet_type_state, set_app_eui_state,
      set_app_key_state, set_dev_addr_state, set_app_skey_state,
      set_nwk_skey_state, enable_adr_state, enable_receive_mode, test_device,
      reset_device, start_device, send_data_state] <;>
    first
      | rfl
      | (split <;> rfl)
      | (simp [Op.isSetJoinType] at h)

theorem step_mode_set (s : DriverState) (op : Op) (h : s.mode ≠ none) :
    (step s op).mode ≠ none := by
  by_cases hop : op.isSetLoraMode = false
  · rw [step_mode_eq s op hop]; exact h
  · cases op <;> simp [Op.isSetLoraMode] at hop
    rename_i m
    show (set_lora_mode s m).state.mode ≠ none
    rw [set_lora_mode_state]
    split
    · simp
    · exact h

theorem step_region_set (s : DriverState) (op : Op) (h : s.region ≠ none) :
    (step s op).region ≠ none := by
  by_cases hop : op.isSetRegion = false
  · rw [step_region_eq s op hop]; exact h
  · cases op <;> simp [Op.isSetRegion] at hop
    rename_i v
    show (set_region s v).state.region ≠ none
    rw [set_region_state]
    split
    · simp
    · exact h

theorem step_join_set (s : DriverState) (op : Op) (h : s.join_type ≠ none) :
    (step s op).join_type ≠ none := by
  by_cases hop : op.isSetJoinType = false
  · rw [step_join_eq s op hop]; exact h
  · cases op <;> simp [Op.isSetJoinType] at hop
    rename_i v
    show (set_join_type s v).state.join_type ≠ none
    rw [set_join_type_state]
    split
    · simp
    · exact h

theorem configInv_step (s : DriverState) (op : Op) (h : ConfigInv s) :
    ConfigInv (step s op) := by
  obtain ⟨h1, h2, h3⟩ := h
  cases op <;>
    simp only [step, set_frequency_state, set_transmit_power_state,
      set_bandwidth_state, set_spreading_factor_state, set_data_rate_state,
      set_dev_type_state, set_sub_band_state, set_packet_type_state,
      set_app_eui_state, set_app_key_state, set_dev_addr_state,
      set_app_skey_state, set_nwk_skey_state, enable_adr_state,
      enable_receive_mode, test_device, reset_device, start_device,
      send_data_state]
  all_goals try exact ⟨h1, h2, h3⟩
  case setLoraMode m =>
    rw [set_lora_mode_state]
    by_cases hm : m ∈ VALID_LORA_MODES
    · rw [if_pos hm]
      simp only [VALID_LORA_MODES, List.mem_cons, List.not_mem_nil,
        or_false] at hm
      rcases hm with rfl | rfl
      · exact ⟨by right; left; rfl, h2, h3⟩
      · exact ⟨by right; right; rfl, h2, h3⟩
    · rw [if_neg hm]; exact ⟨h1, h2, h3⟩
  case setRegion v =>
    rw [set_region_state]
    by_cases hv : v ∈ VALID_REGIONS
    · rw [if_pos hv]
      simp only [VALID_REGIONS, List.mem_cons, List.not_mem_nil,
        or_false] at hv
      rcases hv with rfl | rfl | rfl
      · exact ⟨h1, by right; left; rfl, h3⟩
      · exact ⟨h1, by right; right; left; rfl, h3⟩
      · exact ⟨h1, by right; right; right; rfl, h3⟩
    · rw [if_neg hv]; exact ⟨h1, h2, h3⟩
  case setJoinType v =>
    rw [set_join_type_state]
    by_cases hv : required_lora_mode s "LORAWAN" = none ∧
        pyUpper v ∈ VALID_JOIN_TYPES
    · rw [if_pos hv]
      have hj := hv.2
      simp only [VALID_JOIN_TYPES, List.mem_cons, List.not_mem_nil,
        or_false] at hj
      rcases hj with hj | hj
      · exact ⟨h1, h2, by right; left; rw [hj]⟩
      · exact ⟨h1, h2, by right; right; rw [hj]⟩
    · rw [if_neg hv]; exact ⟨h1, h2, h3⟩

theorem configInv_run (device_id : Nat) (ops : List Op) :
    ConfigInv (run device_id ops) := by
  suffices h : ∀ (l : List Op) (s : DriverState),
      ConfigInv s → ConfigInv (l.foldl step s) by
    exact h ops (initState device_id) ⟨Or.inl rfl, Or.inl rfl, Or.inl rfl⟩
  intro l
  induction l with
  | nil => exact fun s hs => hs
  | cons op l ih => exact fun s hs => ih (step s op) (configInv_step s op hs)

/-- C8: the three configuration fields start unset in a fresh driver, each
is written only by its own setter (every other public operation leaves it
exactly unchanged), once set a field is never unset again, and along every
sequence of public operations from a fresh driver each field is either
unset or a member of its validation table. -/
theorem C8_config_fields (device_id : Nat) (ops : List Op) (s : DriverState)
    (op : Op) :
    (run device_id []).mode = none ∧ (run device_id []).region = none ∧
    (run device_id []).join_type = none ∧
    ConfigInv (run device_id ops) ∧
    (op.isSetLoraMode = false → (step s op).mode = s.mode) ∧
    (op.isSetRegion = false → (step s op).region = s.region) ∧
    (op.isSetJoinType = false → (step s op).join_type = s.join_type) ∧
    (s.mode ≠ none → (step s op).mode ≠ none) ∧
    (s.region ≠ none → (step s op).region ≠ none) ∧
    (s.join_type ≠ none → (step s op).join_type ≠ none) :=
  ⟨rfl, rfl, rfl, configInv_run device_id ops,
   step_mode_eq s op, step_region_eq s op, step_join_eq s op,
   step_mode_set s op, step_region_set s op, step_join_set s op⟩

/-- C8 witness: a concrete configuration run keeps the invariant, a getter
leaves the mode untouched, and a set mode survives an unrelated call. -/
theorem C8_config_fields_witness :
    ConfigInv (run 1 [Op.setLoraMode "LORAWAN", Op.setJoinType "otaa"]) ∧
    (step (initState 1) Op.getRegion).mode = (initState 1).mode ∧
    (step ⟨1, some "LORA", none, none⟩ Op.resetDevice).mode ≠ none :=
  ⟨(C8_config_fields 1 [Op.setLoraMode "LORAWAN", Op.setJoinType "otaa"]
      (initState 1) Op.getRegion).2.2.2.1,
   (C8_config_fields 1 [] (initState 1) Op.getRegion).2.2.2.2.1 (by decide),
   (C8_config_fields 1 [] ⟨1, some "LORA", none, none⟩
      Op.resetDevice).2.2.2.2.2.2.2.1 (by decide)⟩

theorem pySplit1_snd (s : String) (sep : Char) :
    (pySplit1 s sep).2
      = if s.data.contains sep then some (afterFirst s sep) else none := by
  unfold pySplit1 afterFirst
  rw [splitFirst_eq]
  by_cases h : sep ∈ s.data <;> simp [h]

theorem pySplit1Last_eq (s : String) (sep : Char) :
    pySplit1Last s sep = if s.data.contains sep then afterFirst s sep else s := by
  unfold pySplit1Last
  rw [pySplit1_snd]
  by_cases h : sep ∈ s.data <;> simp [h]

theorem recvQualify_eq_qualifySpec (line : String) :
    recvQualify line = qualifySpec line := by
  unfold recvQualify recvProcessLine qualifySpec
  by_cases h1 : pyStrip line = "+RECV=OK" ∨ pyStrip line = "The list is empty!"
  · simp [h1]
  · rw [if_neg h1, if_neg h1]
    set t := (if pyContains line "The list is empty!" then
      pyRstrip (pyBeforeSubstr line "The list is empty!") else line) with ht
    by_cases h2 : pyStartswith t "+RECV=" = true
    · rw [if_pos h2, if_pos h2, pySplit1_snd]
      by_cases h3 : '\t' ∈ t.data
      · simp [h3]
      · rw [pySplit1Last_eq]
        by_cases h4 : ' ' ∈ t.data <;> simp [h3, h4]
    · rw [if_neg h2, if_neg h2]

theorem recvProcessLine_eq (v : Option String) (line : String) :
    recvProcessLine v line
      = match recvQualify line with
        | some r => some r
        | none => v := by
  unfold recvQualify recvProcessLine
  by_cases h1 : pyStrip line = "+RECV=OK" ∨ pyStrip line = "The list is empty!"
  · simp [h1]
  · rw [if_neg h1, if_neg h1]
    set t := (if pyContains line "The list is empty!" then
      pyRstrip (pyBeforeSubstr line "The list is empty!") else line) with ht
    by_cases h2 : pyStartswith t "+RECV=" = true
    · rw [if_pos h2, if_pos h2]
      cases (pySplit1 t '\t').2 <;> rfl
    · rw [if_neg h2, if_neg h2]

theorem getLast?_cons_eq {α : Type} (a : α) (l : List α) :
    (a :: l).getLast?
      = match l.getLast? with
        | some b => some b
        | none => some a := by
  induction l generalizing a with
  | nil => rfl
  | cons b bs ih =>
    rw [List.getLast?_cons_cons, ih b]
    cases hbs : bs.getLast? <;> rfl

theorem foldl_recvProcessLine (lines : List String) (v : Option String) :
    lines.foldl recvProcessLine v
      = match (lines.filterMap recvQualify).getLast? with
        | some r => some r
        | none => v := by
  induction lines generalizing v with
  | nil => rfl
  | cons l ls ih =>
    rw [List.foldl_cons, ih, List.filterMap_cons]
    cases hq : recvQualify l with
    | none =>
      rw [recvProcessLine_eq, hq]
    | some r =>
      rw [recvProcessLine_eq, hq, getLast?_cons_eq]
      cases hrest : (ls.filterMap recvQualify).getLast? <;> rfl

theorem filterMap_recvQualify (lines : List String) :
    lines.filterMap recvQualify = lines.filterMap qualifySpec := by
  induction lines with
  | nil => rfl
  | cons l ls ih =>
    rw [List.filterMap_cons, List.filterMap_cons, recvQualify_eq_qualifySpec, ih]

/-- C2 counterexample: when the last qualifying line carries an empty
payload (a tab with nothing after it, as in `'+RECV=\t'` followed by a
terminal `'OK'` line), the claimed contract returns that empty payload,
but the code's final truthiness test (`if value:`) maps the empty string
to the absent value. -/
theorem C2_counterexample :
    qualifySpec "+RECV=\t" = some "" ∧
    receiveSpecStated ["+RECV=1\tAB", "+RECV=\t", "OK"] = some "" ∧
    receiveParse ["+RECV=1\tAB", "+RECV=\t", "OK"] = none ∧
    receive_data (some "+RECV=1\tAB\r\n+RECV=\t\r\nOK") = .ok none := by
  exact ⟨by decide, by decide, by decide, rfl⟩

/-- C2 (amended): `receive_data` scans lines in order with the claimed
skip/truncate/extract rules and keeps the payload of the last qualifying
line, but returns it only when it is non-empty; the absent value results
when no line qualifies or the last qualifying payload is the empty string.
The claim's concrete scenario holds. -/
theorem C2_parse_last_qualifying (lines : List String) :
    receiveParse lines
      = (match receiveSpecStated lines with
         | some r => if r = "" then none else some r
         | none => none) ∧
    receiveParse ["+RECV=OK", "+RECV=1\t02FF48656C6C6F", "The list is empty!"]
      = some "02FF48656C6C6F" ∧
    receive_data (some "+RECV=OK\r\n+RECV=1\t02FF48656C6C6F\r\nThe list is empty!")
      = .ok (some "02FF48656C6C6F") := by
  refine ⟨?_, by decide, rfl⟩
  unfold receiveParse receiveSpecStated
  rw [foldl_recvProcessLine, ← filterMap_recvQualify]
  cases h : (lines.filterMap recvQualify).getLast? <;> rfl

theorem dropWhile_eq_self_of {l : List Char} (h : ∀ c ∈ l, pyIsSpace c = false) :
    l.dropWhile pyIsSpace = l := by
  cases l with
  | nil => rfl
  | cons c cs =>
    rw [List.dropWhile_cons, h c (List.mem_cons_self c cs)]
    simp

theorem pyStrip_eq_self {line : String}
    (hw : ∀ c ∈ line.data, pyIsSpace c = false) : pyStrip line = line := by
  unfold pyStrip
  rw [dropWhile_eq_self_of hw,
      dropWhile_eq_self_of (fun c hc => hw c (by simpa using hc)),
      List.reverse_reverse]

theorem not_mem_of_all {l : List Char} {a : Char}
    (h : ∀ c ∈ l, pyIsSpace c = false) (ha : pyIsSpace a = true) : a ∉ l := by
  intro hmem
  have hfalse := h a hmem
  rw [hfalse] at ha
  cases ha

/-- C10 counterexample: the line `'+RECV=OK'` starts with `'+RECV='` and
contains neither a tab nor a space, yet the parser skips it entirely (it is
the status sentinel), so no payload is extracted from it — against the
claim that every such line has the entire line extracted as the payload. -/
theorem C10_counterexample :
    pyStartswith "+RECV=OK" "+RECV=" = true ∧
    "+RECV=OK".data.contains '\t' = false ∧
    "+RECV=OK".data.contains ' ' = false ∧
    recvProcessLine none "+RECV=OK" = none ∧
    receiveParse ["+RECV=OK"] = none ∧
    receive_data (some "+RECV=OK") = .ok none := by
  exact ⟨by decide, by decide, by decide, by decide, by decide, rfl⟩

/-- C10 (amended): every line that starts with `'+RECV='`, contains no tab,
no space (and no other strippable whitespace), and is not the exact status
line `'+RECV=OK'`, is extracted whole — the payload is the entire line
including the `'+RECV='` marker — and that full line is returned to the
caller. -/
theorem C10_no_delim_whole_line (v : Option String) (line : String)
    (hpre : pyStartswith line "+RECV=" = true)
    (hw : ∀ c ∈ line.data, pyIsSpace c = false)
    (hok : line ≠ "+RECV=OK") :
    recvProcessLine v line = some line ∧ receiveParse [line] = some line := by
  have hstrip : pyStrip line = line := pyStrip_eq_self hw
  have hsent : pyContains line "The list is empty!" = false := by
    rw [Bool.eq_false_iff]
    intro hct
    have hmem := isSubstrAux_mem hct ' ' (by decide)
    have hfalse := hw ' ' hmem
    simp [pyIsSpace] at hfalse
  have htab : '\t' ∉ line.data := not_mem_of_all hw (by decide)
  have hsp : ' ' ∉ line.data := not_mem_of_all hw (by decide)
  have hskip : ¬ (pyStrip line = "+RECV=OK" ∨ pyStrip line = "The list is empty!") := by
    rw [hstrip]
    rintro (he | he)
    · exact hok he
    · have hfalse := hw ' ' (by rw [he]; decide)
      simp [pyIsSpace] at hfalse
  have hmain : ∀ w : Option String, recvProcessLine w line = some line := by
    intro w
    unfold recvProcessLine
    rw [if_neg hskip]
    simp [hsent, hpre, pySplit1_snd, htab, pySplit1Last_eq, hsp]
  have hne2 : line ≠ "" := by
    intro he
    rw [he] at hpre
    exact absurd hpre (by decide)
  refine ⟨hmain v, ?_⟩
  unfold receiveParse
  simp only [List.foldl_cons, List.foldl_nil, hmain]
  rw [if_neg hne2]

/-- C10 witness: the line `'+RECV=ABC'` (no tab, no space) is returned
whole, marker included. -/
theorem C10_no_delim_whole_line_witness :
    recvProcessLine none "+RECV=ABC" = some "+RECV=ABC" ∧
    receiveParse ["+RECV=ABC"] = some "+RECV=ABC" :=
  C10_no_delim_whole_line none "+RECV=ABC" (by decide) (by decide) (by decide)

end DFRobotLoRaWAN
